import Mathlib

/-!
Shallow embedding of `app.py` (forecast_example): a single-render pipeline
loading a sales table, validating required columns, fitting one forecast per
SKU, displaying per-SKU tables, and exporting an aggregate spreadsheet.
Timestamps are modelled as day numbers (`Nat`), numeric cells as `Int`,
model estimates as `Rat`.
-/

set_option autoImplicit false

namespace Forecast

/-- `MAX_SIZE_MB = 5` from `app.py`. -/
def MAX_SIZE_MB : Nat := 5

/-- One row of the loaded table, projected to the three required columns
`sku`, `fecha` (as a day number), `demanda_real`.  Optional passthrough
columns are tolerated but unused by the pipeline, so they are not modelled. -/
structure Row where
  sku : String
  fecha : Nat
  demanda_real : Int
deriving DecidableEq

/-- A loaded table: its column-name list (what `df.columns` exposes, used by
the validator) and its rows. -/
structure Table where
  cols : List String
  rows : List Row
deriving DecidableEq

/-- An uploaded file as the pipeline sees it: a name (drives the
csv/xlsx dispatch), a byte size, and what reading it as csv or as
xlsx would yield (`Except` for a parse failure propagating). -/
structure UploadedFile where
  name : String
  size : Nat
  csvData : Except String Table
  xlsxData : Except String Table

/-- `uploaded_file.size / (1024 * 1024)`: byte size converted to megabytes.
Python computes this in double precision, which is exact for every size
below 2^53 bytes; the rational value coincides on all such inputs. -/
def fileSizeMB (bytes : Nat) : ℚ :=
  (bytes : ℚ) / (1024 * 1024)

/-- The characters of the `.csv` extension. -/
def csvSuffix : List Char := ['.', 'c', 's', 'v']

/-- `uploaded_file.name.endswith('.csv')`, on the name's character list. -/
def hasCsvSuffix (name : String) : Bool :=
  csvSuffix.isSuffixOf name.data

/-- `pd.read_csv(uploaded_file)` vs `pd.read_excel(uploaded_file)`, chosen by
`uploaded_file.name.endswith('.csv')`. -/
def readFile (f : UploadedFile) : Except String Table :=
  if hasCsvSuffix f.name then f.csvData else f.xlsxData

/-- The user-visible notifications the script emits via
`st.error` / `st.info` / `st.success`. -/
inductive Msg where
  | error (s : String)
  | info (s : String)
  | success (s : String)
deriving DecidableEq

def sizeErrorMsg : String := "El archivo es demasiado grande. El limite es 5 MB."
def loadSuccessMsg : String := "Archivo cargado correctamente!"
def exampleInfoMsg : String := "Usando dataset sintetico de ejemplo."
def missingColMsg (c : String) : String :=
  "El dataset debe contener la columna " ++ c
def doneMsg : String := "Forecast generado para todos los SKUs."

/-- `required_cols = ['sku', 'fecha', 'demanda_real']`. -/
def required_cols : List String := ["sku", "fecha", "demanda_real"]

/-- The validation loop halts on the first required column absent from
`df.columns` (`for col in required_cols: if col not in df.columns: ...`). -/
def firstMissing (cols : List String) : Option String :=
  required_cols.find? (fun c => !(cols.contains c))

/-- `seasonality_mode` selectbox: `'additive'` or `'multiplicative'`. -/
inductive SeasonalityMode where
  | additive
  | multiplicative
deriving DecidableEq

/-- `df['sku'].unique()`: distinct values in order of first appearance. -/
def uniqueFirst {α : Type} [BEq α] : List α → List α
  | [] => []
  | x :: xs => x :: uniqueFirst (xs.filter (fun y => !(y == x)))
termination_by l => l.length
decreasing_by
  simp only [List.length_cons]
  exact Nat.lt_succ_of_le (List.length_filter_le _ xs)

/-- Insert into a sorted list of day numbers. -/
def insertSorted (x : Nat) : List Nat → List Nat
  | [] => [x]
  | y :: ys => if x ≤ y then x :: y :: ys else y :: insertSorted x ys

/-- Sort a list of day numbers ascending (insertion sort). -/
def sortNat (l : List Nat) : List Nat :=
  l.foldr insertSorted []

/-- `df_sku = df[df['sku'] == sku]`: the rows of one entity, in table order. -/
def entitySeries (df : Table) (s : String) : List Row :=
  df.rows.filter (fun r => r.sku == s)

/-- Modelled from the spec: the external Prophet model keeps the sorted
distinct timestamps of the fitted series (`history_dates`). -/
def historyDates (series : List Row) : List Nat :=
  sortNat (uniqueFirst (series.map (fun r => r.fecha)))

/-- The latest historical timestamp of a series (0 when empty). -/
def lastDate (series : List Row) : Nat :=
  (series.map (fun r => r.fecha)).foldr max 0

/-- Modelled from the spec: `make_future_dataframe(periods=periods)` extends
the timeline by `periods` daily timestamps after the last historical one. -/
def futureDates (series : List Row) (periods : Nat) : List Nat :=
  (List.range periods).map (fun i => lastDate series + 1 + i)

/-- One row of `m.predict(future)`, restricted to the columns the pipeline
consumes: timestamp, point estimate, lower and upper bound. -/
structure ForecastRow where
  ds : Nat
  yhat : ℚ
  yhat_lower : ℚ
  yhat_upper : ℚ
deriving DecidableEq

/-- A forecast row after `forecast['sku'] = sku`. -/
structure TaggedRow where
  ds : Nat
  yhat : ℚ
  yhat_lower : ℚ
  yhat_upper : ℚ
  sku : String
deriving DecidableEq

/-- A row of the per-SKU display table
`forecast[['ds', 'yhat', 'yhat_lower', 'yhat_upper']]`. -/
structure DisplayRow where
  ds : Nat
  yhat : ℚ
  yhat_lower : ℚ
  yhat_upper : ℚ
deriving DecidableEq

/-- Modelled from the spec: the point estimate the external model produces is
an abstract deterministic function of the fitted series; the claims under
verification constrain timestamps, row counts and tagging, never the
numeric estimates themselves. -/
def meanDemand (series : List Row) : ℚ :=
  (series.map (fun r => (r.demanda_real : ℚ))).sum / (series.length : ℚ)

/-- The interval half-width of the abstract estimate; it depends on the
configured seasonality mode, as the fitted model does. -/
def modeWidth : SeasonalityMode → ℚ
  | SeasonalityMode.additive => 1
  | SeasonalityMode.multiplicative => 2

/-- Modelled from the spec: `m.predict(future)` returns one row per timestamp
of the future dataframe (all historical timestamps, then the `periods`
future ones), with point estimate and bounds. -/
def prophetPredict (mode : SeasonalityMode) (series : List Row) (periods : Nat) :
    List ForecastRow :=
  (historyDates series ++ futureDates series periods).map (fun d =>
    { ds := d
      yhat := meanDemand series
      yhat_lower := meanDemand series - modeWidth mode
      yhat_upper := meanDemand series + modeWidth mode })

/-- The fit-and-predict step for one SKU, followed by `forecast['sku'] = sku`:
only that entity's rows enter the fit, and every output row is tagged. -/
def forecastFor (mode : SeasonalityMode) (periods : Nat) (df : Table) (s : String) :
    List TaggedRow :=
  (prophetPredict mode (entitySeries df s) periods).map (fun r =>
    { ds := r.ds
      yhat := r.yhat
      yhat_lower := r.yhat_lower
      yhat_upper := r.yhat_upper
      sku := s })

/-- `DataFrame.tail(n)`: the last `n` rows (all rows when fewer than `n`). -/
def tailN {α : Type} (n : Nat) (l : List α) : List α :=
  l.drop (l.length - n)

/-- Drop the `sku` tag, keeping the four displayed columns. -/
def toDisplay (r : TaggedRow) : DisplayRow :=
  { ds := r.ds, yhat := r.yhat, yhat_lower := r.yhat_lower, yhat_upper := r.yhat_upper }

/-- `forecast[['ds', 'yhat', 'yhat_lower', 'yhat_upper']].tail(periods)`. -/
def displayFor (mode : SeasonalityMode) (periods : Nat) (df : Table) (s : String) :
    List DisplayRow :=
  tailN periods ((forecastFor mode periods df s).map toDisplay)

/-- The excel artifact offered by `st.download_button`: fixed filename and
MIME type, a header row and the aggregated data rows. -/
structure Download where
  fileName : String
  mime : String
  header : List String
  dataRows : List TaggedRow
deriving DecidableEq

/-- Column names of the exported table, as consumed by the pipeline. -/
def exportCols : List String := ["ds", "yhat", "yhat_lower", "yhat_upper", "sku"]

def exportFileName : String := "forecast_all_skus.xlsx"
def exportMime : String :=
  "application/vnd.openxmlformats-officedocument.spreadsheetml.sheet"

/-- Everything one render produces: notifications, an uncaught exception if
the render aborted, the SKUs for which a model fit was attempted, the number
of charts rendered, the per-SKU forecast tables and display tables, and the
offered download. -/
structure RenderResult where
  messages : List Msg
  exception : Option String
  fits : List String
  charts : Nat
  forecasts : List (String × List TaggedRow)
  displays : List (String × List DisplayRow)
  download : Option Download
deriving DecidableEq

/-- Sections 4 and 5 of the script: iterate `df['sku'].unique()`, fit and
predict per SKU, render two charts and one display table per SKU, then
concatenate all forecasts and offer the excel download. -/
def runForecasts (msgs : List Msg) (df : Table) (periods : Nat)
    (mode : SeasonalityMode) : RenderResult :=
  let skus := uniqueFirst (df.rows.map (fun r => r.sku))
  let forecasts := skus.map (fun s => (s, forecastFor mode periods df s))
  { messages := msgs ++ [Msg.success doneMsg]
    exception := none
    fits := skus
    charts := 2 * skus.length
    forecasts := forecasts
    displays := skus.map (fun s => (s, displayFor mode periods df s))
    download := some
      { fileName := exportFileName
        mime := exportMime
        header := exportCols
        dataRows := (forecasts.map Prod.snd).flatten } }

/-- The pipeline from section 2 on, given whatever the load section bound
`df` to (`none` when the oversized branch left `df` unassigned): validate the
required columns, halting via `st.stop()` on the first miss; with `df`
unbound, touching `df.columns` raises a NameError that aborts the render. -/
def afterLoad (msgs : List Msg) (df? : Option Table) (periods : Nat)
    (mode : SeasonalityMode) : RenderResult :=
  match df? with
  | none =>
      { messages := msgs
        exception := some "NameError: name df is not defined"
        fits := []
        charts := 0
        forecasts := []
        displays := []
        download := none }
  | some df =>
      match firstMissing df.cols with
      | some c =>
          { messages := msgs ++ [Msg.error (missingColMsg c)]
            exception := none
            fits := []
            charts := 0
            forecasts := []
            displays := []
            download := none }
      | none => runForecasts msgs df periods mode

/-- One full render of `app.py`, as a function of the upload slot, the
bundled example dataset, and the sidebar parameters.  An oversized upload
reports a size error and leaves `df` unassigned; an accepted upload is
parsed by extension (a parse failure propagates as an uncaught exception);
no upload falls back to the example dataset with an info notification. -/
def render (upload : Option UploadedFile) (exampleData : Table) (periods : Nat)
    (mode : SeasonalityMode) : RenderResult :=
  match upload with
  | some f =>
      if fileSizeMB f.size > (MAX_SIZE_MB : ℚ) then
        afterLoad [Msg.error sizeErrorMsg] none periods mode
      else
        match readFile f with
        | Except.error e =>
            { messages := []
              exception := some e
              fits := []
              charts := 0
              forecasts := []
              displays := []
              download := none }
        | Except.ok t =>
            afterLoad [Msg.success loadSuccessMsg] (some t) periods mode
  | none =>
      afterLoad [Msg.info exampleInfoMsg] (some exampleData) periods mode

end Forecast

namespace Forecast

/-- The forecast row the modelled Prophet produces at timestamp `d`, for the
series of SKU `s`, after tagging. -/
def taggedRowAt (mode : SeasonalityMode) (series : List Row) (s : String)
    (d : Nat) : TaggedRow :=
  { ds := d
    yhat := meanDemand series
    yhat_lower := meanDemand series - modeWidth mode
    yhat_upper := meanDemand series + modeWidth mode
    sku := s }

/-- A small valid table used to instantiate the theorems. -/
def wTable : Table :=
  { cols := ["sku", "fecha", "demanda_real"]
    rows := [{ sku := "A", fecha := 0, demanda_real := 1 },
             { sku := "A", fecha := 1, demanda_real := 2 },
             { sku := "B", fecha := 0, demanda_real := 3 }] }

/-- `wTable` with an extra `B` row appended: the `A` series is unchanged. -/
def wTableExtra : Table :=
  { cols := ["sku", "fecha", "demanda_real"]
    rows := [{ sku := "A", fecha := 0, demanda_real := 1 },
             { sku := "A", fecha := 1, demanda_real := 2 },
             { sku := "B", fecha := 0, demanda_real := 3 },
             { sku := "B", fecha := 1, demanda_real := 7 }] }

/-- A table whose `fecha` column is missing. -/
def wTableNoFecha : Table :=
  { cols := ["sku", "demanda_real"]
    rows := [{ sku := "A", fecha := 0, demanda_real := 1 }] }

/-- A 6 MB upload (oversized for the 5 MB limit). -/
def wUploadBig : UploadedFile :=
  { name := "big.csv"
    size := 6291456
    csvData := Except.ok wTable
    xlsxData := Except.ok wTable }

/-- An upload of exactly 5 * 1024 * 1024 bytes, parsing to `wTable`. -/
def wUploadBoundary : UploadedFile :=
  { name := "data.csv"
    size := 5242880
    csvData := Except.ok wTable
    xlsxData := Except.ok wTable }

/-- Row `i` of entity `A` in the two-entity scenario. -/
def demoRowA (i : Nat) : Row := { sku := "A", fecha := i, demanda_real := 5 }

/-- Row `i` of entity `B` in the two-entity scenario. -/
def demoRowB (i : Nat) : Row := { sku := "B", fecha := i, demanda_real := 8 }

/-- The scenario table: entities `A` and `B`, 400 daily observations each. -/
def demoTable : Table :=
  { cols := ["sku", "fecha", "demanda_real"]
    rows := (List.range 400).map demoRowA ++ (List.range 400).map demoRowB }

/-- The scenario render: `demoTable`, horizon 30, additive seasonality. -/
def demoRender : RenderResult :=
  render none demoTable 30 SeasonalityMode.additive

/-! ### Helper lemmas -/

theorem uniqueFirst_nil {α : Type} [BEq α] : uniqueFirst ([] : List α) = [] := by
  rw [uniqueFirst]

theorem uniqueFirst_cons {α : Type} [BEq α] (x : α) (xs : List α) :
    uniqueFirst (x :: xs) = x :: uniqueFirst (xs.filter (fun y => !(y == x))) := by
  rw [uniqueFirst]

theorem mem_uniqueFirst {α : Type} [BEq α] [LawfulBEq α] :
    ∀ (l : List α) (a : α), a ∈ uniqueFirst l ↔ a ∈ l := by
  intro l
  induction l using uniqueFirst.induct with
  | case1 => intro a; rw [uniqueFirst_nil]
  | case2 x xs ih =>
      intro a
      rw [uniqueFirst_cons]
      by_cases hax : a = x
      · subst hax; simp
      · simp only [List.mem_cons, ih, List.mem_filter, hax, false_or]
        constructor
        · rintro ⟨h, _⟩; exact h
        · intro h; exact ⟨h, by simp [hax]⟩

theorem nodup_uniqueFirst {α : Type} [BEq α] [LawfulBEq α] :
    ∀ (l : List α), (uniqueFirst l).Nodup := by
  intro l
  induction l using uniqueFirst.induct with
  | case1 => rw [uniqueFirst_nil]; exact List.nodup_nil
  | case2 x xs ih =>
      rw [uniqueFirst_cons]
      refine List.nodup_cons.mpr ⟨?_, ih⟩
      intro hx
      have hmem := (mem_uniqueFirst _ x).mp hx
      simp [List.mem_filter] at hmem

theorem uniqueFirst_eq_self {α : Type} [BEq α] [LawfulBEq α] :
    ∀ (l : List α), l.Nodup → uniqueFirst l = l := by
  intro l
  induction l using uniqueFirst.induct with
  | case1 => intro _; rw [uniqueFirst_nil]
  | case2 x xs ih =>
      intro h
      have hx : x ∉ xs := (List.nodup_cons.mp h).1
      have hfil : xs.filter (fun y => !(y == x)) = xs := by
        apply List.filter_eq_self.mpr
        intro y hy
        have : y ≠ x := fun he => hx (he ▸ hy)
        simp [this]
      rw [uniqueFirst_cons, hfil]
      rw [hfil] at ih
      rw [ih (List.nodup_cons.mp h).2]

theorem filter_replicate_of_pos {α : Type} (p : α → Bool) (a : α) (n : Nat)
    (h : p a = true) : (List.replicate n a).filter p = List.replicate n a := by
  induction n with
  | zero => rfl
  | succ n ih => simp [List.replicate_succ, List.filter_cons, h, ih]

theorem filter_replicate_of_neg {α : Type} (p : α → Bool) (a : α) (n : Nat)
    (h : p a = false) : (List.replicate n a).filter p = [] := by
  induction n with
  | zero => rfl
  | succ n ih => simp [List.replicate_succ, List.filter_cons, h, ih]

theorem uniqueFirst_replicate {α : Type} [BEq α] [LawfulBEq α] (n : Nat) (a : α)
    (h : n ≠ 0) : uniqueFirst (List.replicate n a) = [a] := by
  cases n with
  | zero => exact absurd rfl h
  | succ n =>
      rw [List.replicate_succ, uniqueFirst_cons,
        filter_replicate_of_neg _ _ _ (by simp), uniqueFirst_nil]

theorem uniqueFirst_replicate_append {α : Type} [BEq α] [LawfulBEq α]
    (n m : Nat) (a b : α) (hn : n ≠ 0) (hm : m ≠ 0) (hab : a ≠ b) :
    uniqueFirst (List.replicate n a ++ List.replicate m b) = [a, b] := by
  cases n with
  | zero => exact absurd rfl hn
  | succ n =>
      rw [List.replicate_succ, List.cons_append, uniqueFirst_cons,
        List.filter_append, filter_replicate_of_neg _ _ _ (by simp),
        filter_replicate_of_pos _ _ _ (by simp [Ne.symm hab]),
        List.nil_append, uniqueFirst_replicate m b hm]

theorem filter_map_comm {α β : Type} (p : β → Bool) (f : α → β) (l : List α) :
    (l.map f).filter p = (l.filter (fun a => p (f a))).map f := by
  induction l with
  | nil => rfl
  | cons x xs ih => by_cases h : p (f x) <;> simp [List.filter_cons, h, ih]

theorem length_insertSorted (x : Nat) (l : List Nat) :
    (insertSorted x l).length = l.length + 1 := by
  induction l with
  | nil => rfl
  | cons y ys ih => by_cases h : x ≤ y <;> simp [insertSorted, h, ih]

theorem length_sortNat (l : List Nat) : (sortNat l).length = l.length := by
  induction l with
  | nil => rfl
  | cons x xs ih =>
      show (insertSorted x (sortNat xs)).length = xs.length + 1
      rw [length_insertSorted, ih]

theorem length_tailN {α : Type} (n : Nat) (l : List α) (h : n ≤ l.length) :
    (tailN n l).length = n := by
  simp only [tailN, List.length_drop]
  omega

theorem tailN_append {α : Type} (n : Nat) (l₁ l₂ : List α) (h : l₂.length = n) :
    tailN n (l₁ ++ l₂) = l₂ := by
  unfold tailN
  rw [List.length_append, h]
  have he : l₁.length + n - n = l₁.length := by omega
  rw [he]
  exact List.drop_left l₁ l₂

theorem forecastFor_eq_append (mode : SeasonalityMode) (periods : Nat)
    (df : Table) (s : String) :
    forecastFor mode periods df s =
      (historyDates (entitySeries df s)).map
        (taggedRowAt mode (entitySeries df s) s) ++
      (futureDates (entitySeries df s) periods).map
        (taggedRowAt mode (entitySeries df s) s) := by
  simp only [forecastFor, prophetPredict, List.map_append, List.map_map]
  rfl

theorem length_futureDates (series : List Row) (periods : Nat) :
    (futureDates series periods).length = periods := by
  simp [futureDates]

theorem length_forecastFor (mode : SeasonalityMode) (periods : Nat)
    (df : Table) (s : String) :
    (forecastFor mode periods df s).length =
      (historyDates (entitySeries df s)).length + periods := by
  rw [forecastFor_eq_append]
  simp [length_futureDates]

theorem displayFor_eq_future (mode : SeasonalityMode) (periods : Nat)
    (df : Table) (s : String) :
    displayFor mode periods df s =
      (futureDates (entitySeries df s) periods).map (fun d =>
        toDisplay (taggedRowAt mode (entitySeries df s) s d)) := by
  unfold displayFor
  rw [forecastFor_eq_append, List.map_append]
  rw [tailN_append]
  · rw [List.map_map]; rfl
  · simp [length_futureDates]

theorem length_displayFor (mode : SeasonalityMode) (periods : Nat)
    (df : Table) (s : String) :
    (displayFor mode periods df s).length = periods := by
  rw [displayFor_eq_future]
  simp [length_futureDates]

theorem mem_displayFor_future (mode : SeasonalityMode) (periods : Nat)
    (df : Table) (s : String) (r : DisplayRow)
    (h : r ∈ displayFor mode periods df s) :
    lastDate (entitySeries df s) < r.ds := by
  rw [displayFor_eq_future] at h
  rcases List.mem_map.mp h with ⟨d, hd, hr⟩
  rcases List.mem_map.mp ((by simpa [futureDates] using hd :
    d ∈ (List.range periods).map (fun i => lastDate (entitySeries df s) + 1 + i))) with
    ⟨i, _, hi⟩
  subst hr
  simp [toDisplay, taggedRowAt]
  omega

end Forecast

namespace Forecast

/-! ### Reduction lemmas for the pipeline -/

theorem render_some_eq (f : UploadedFile) (ex : Table) (periods : Nat)
    (mode : SeasonalityMode) :
    render (some f) ex periods mode =
      if fileSizeMB f.size > (MAX_SIZE_MB : ℚ) then
        afterLoad [Msg.error sizeErrorMsg] none periods mode
      else
        match readFile f with
        | Except.error e =>
            { messages := []
              exception := some e
              fits := []
              charts := 0
              forecasts := []
              displays := []
              download := none }
        | Except.ok t =>
            afterLoad [Msg.success loadSuccessMsg] (some t) periods mode := rfl

theorem render_none_eq (ex : Table) (periods : Nat) (mode : SeasonalityMode) :
    render none ex periods mode =
      afterLoad [Msg.info exampleInfoMsg] (some ex) periods mode := rfl

theorem afterLoad_none_eq (msgs : List Msg) (periods : Nat)
    (mode : SeasonalityMode) :
    afterLoad msgs none periods mode =
      { messages := msgs
        exception := some "NameError: name df is not defined"
        fits := []
        charts := 0
        forecasts := []
        displays := []
        download := none } := rfl

theorem afterLoad_some_eq (msgs : List Msg) (df : Table) (periods : Nat)
    (mode : SeasonalityMode) :
    afterLoad msgs (some df) periods mode =
      match firstMissing df.cols with
      | some c =>
          { messages := msgs ++ [Msg.error (missingColMsg c)]
            exception := none
            fits := []
            charts := 0
            forecasts := []
            displays := []
            download := none }
      | none => runForecasts msgs df periods mode := rfl

theorem afterLoad_valid (msgs : List Msg) (df : Table) (periods : Nat)
    (mode : SeasonalityMode) (hv : firstMissing df.cols = none) :
    afterLoad msgs (some df) periods mode = runForecasts msgs df periods mode := by
  rw [afterLoad_some_eq, hv]

theorem runForecasts_forecasts (msgs : List Msg) (df : Table) (periods : Nat)
    (mode : SeasonalityMode) :
    (runForecasts msgs df periods mode).forecasts =
      (uniqueFirst (df.rows.map (fun r => r.sku))).map
        (fun s => (s, forecastFor mode periods df s)) := rfl

theorem runForecasts_displays (msgs : List Msg) (df : Table) (periods : Nat)
    (mode : SeasonalityMode) :
    (runForecasts msgs df periods mode).displays =
      (uniqueFirst (df.rows.map (fun r => r.sku))).map
        (fun s => (s, displayFor mode periods df s)) := rfl

theorem afterLoad_messages_prefix (msgs : List Msg) (df? : Option Table)
    (periods : Nat) (mode : SeasonalityMode) :
    ∃ rest, (afterLoad msgs df? periods mode).messages = msgs ++ rest := by
  cases df? with
  | none => exact ⟨[], by simp [afterLoad_none_eq]⟩
  | some df =>
      rw [afterLoad_some_eq]
      cases hfm : firstMissing df.cols with
      | some c => exact ⟨[Msg.error (missingColMsg c)], rfl⟩
      | none => exact ⟨[Msg.success doneMsg], rfl⟩

/-! ### Claims -/

/-- C1: an upload strictly larger than the 5 MB limit makes the render report
the size error and abort before parsing: the result has no fit, no chart, no
forecast table and no download, and it is fully determined by the file's
size, so two uploads of the same size — whatever their contents — render
identically: the contents are never read. -/
theorem C1_oversized_upload_halts_before_parsing
    (f : UploadedFile) (ex : Table) (periods : Nat) (mode : SeasonalityMode)
    (h : fileSizeMB f.size > (MAX_SIZE_MB : ℚ)) :
    render (some f) ex periods mode =
      { messages := [Msg.error sizeErrorMsg]
        exception := some "NameError: name df is not defined"
        fits := []
        charts := 0
        forecasts := []
        displays := []
        download := none } ∧
    ∀ g : UploadedFile, g.size = f.size →
      render (some g) ex periods mode = render (some f) ex periods mode := by
  have hred : ∀ u : UploadedFile, fileSizeMB u.size > (MAX_SIZE_MB : ℚ) →
      render (some u) ex periods mode =
        afterLoad [Msg.error sizeErrorMsg] none periods mode := by
    intro u hu
    rw [render_some_eq, if_pos hu]
  constructor
  · rw [hred f h]; rfl
  · intro g hg
    rw [hred g (by rw [hg]; exact h), hred f h]

/-- C1 witness: a 6 MB csv upload is rejected with the size error and the
render aborts with nothing fitted, rendered, or offered. -/
theorem C1_witness :
    render (some wUploadBig) wTable 30 SeasonalityMode.additive =
      { messages := [Msg.error sizeErrorMsg]
        exception := some "NameError: name df is not defined"
        fits := []
        charts := 0
        forecasts := []
        displays := []
        download := none } :=
  (C1_oversized_upload_halts_before_parsing wUploadBig wTable 30
    SeasonalityMode.additive
    (by norm_num [wUploadBig, fileSizeMB, MAX_SIZE_MB])).1

/-- C4: the model fit for an entity depends only on the rows whose `sku`
equals that entity (two tables agreeing on those rows yield the same
Forecast Table), the fitted series contains only that entity's rows, and
every row of the resulting Forecast Table is tagged with that entity. -/
theorem C4_per_entity_isolation_and_tagging
    (df₁ df₂ : Table) (s : String) (periods : Nat) (mode : SeasonalityMode)
    (h : entitySeries df₁ s = entitySeries df₂ s) :
    forecastFor mode periods df₁ s = forecastFor mode periods df₂ s ∧
    (∀ row ∈ entitySeries df₁ s, row.sku = s) ∧
    (∀ row ∈ forecastFor mode periods df₁ s, row.sku = s) := by
  refine ⟨?_, ?_, ?_⟩
  · unfold forecastFor
    rw [h]
  · intro row hrow
    have hp := List.of_mem_filter hrow
    simpa using hp
  · intro row hrow
    unfold forecastFor at hrow
    rcases List.mem_map.mp hrow with ⟨r, _, hr⟩
    rw [← hr]

/-- C4 witness: appending a `B` row to the sample table leaves the Forecast
Table of `A` unchanged — the fit of `A` never sees `B` observations. -/
theorem C4_witness :
    forecastFor SeasonalityMode.additive 30 wTable "A" =
      forecastFor SeasonalityMode.additive 30 wTableExtra "A" :=
  (C4_per_entity_isolation_and_tagging wTable wTableExtra "A" 30
    SeasonalityMode.additive (by decide)).1

/-- C8: with no upload, the render emits the info notification first and
proceeds into validation with the bundled example dataset; the load step
itself never fails, whatever the example dataset is. -/
theorem C8_no_upload_uses_example
    (ex : Table) (periods : Nat) (mode : SeasonalityMode) :
    render none ex periods mode =
      afterLoad [Msg.info exampleInfoMsg] (some ex) periods mode ∧
    ∃ rest, (render none ex periods mode).messages =
      Msg.info exampleInfoMsg :: rest := by
  refine ⟨render_none_eq ex periods mode, ?_⟩
  rw [render_none_eq]
  rcases afterLoad_messages_prefix [Msg.info exampleInfoMsg] (some ex)
    periods mode with ⟨rest, hrest⟩
  exact ⟨rest, by simpa using hrest⟩

/-- C9: the render is a deterministic function of the input table, horizon
and seasonality mode: two renders on identical inputs produce identical
per-entity Forecast Tables and identical display tables.  (The external
model is embedded as a function, reflecting the spec's assumption that the
library is deterministic for fixed inputs and version.) -/
theorem C9_deterministic_render
    (u₁ u₂ : Option UploadedFile) (ex₁ ex₂ : Table) (p₁ p₂ : Nat)
    (m₁ m₂ : SeasonalityMode)
    (hu : u₁ = u₂) (hex : ex₁ = ex₂) (hp : p₁ = p₂) (hm : m₁ = m₂) :
    (render u₁ ex₁ p₁ m₁).forecasts = (render u₂ ex₂ p₂ m₂).forecasts ∧
    (render u₁ ex₁ p₁ m₁).displays = (render u₂ ex₂ p₂ m₂).displays := by
  subst hu
  subst hex
  subst hp
  subst hm
  exact ⟨rfl, rfl⟩

/-- C9 witness: two renders of the sample table with horizon 30 and additive
mode agree on forecasts and displays. -/
theorem C9_witness :
    (render none wTable 30 SeasonalityMode.additive).forecasts =
      (render none wTable 30 SeasonalityMode.additive).forecasts :=
  (C9_deterministic_render none none wTable wTable 30 30
    SeasonalityMode.additive SeasonalityMode.additive rfl rfl rfl rfl).1

end Forecast

namespace Forecast

/-- C2: a loaded table missing any required column makes the pipeline stop
with an error naming the first missing column of
`['sku', 'fecha', 'demanda_real']`: no fit is attempted, no chart is
rendered, and no download is offered. -/
theorem C2_missing_column_halts
    (df : Table) (msgs : List Msg) (periods : Nat) (mode : SeasonalityMode)
    (h : ¬ ∀ c ∈ required_cols, df.cols.contains c = true) :
    ∃ c, firstMissing df.cols = some c ∧ c ∈ required_cols ∧
      df.cols.contains c = false ∧
      (∀ d ∈ required_cols, df.cols.contains d = false →
        required_cols.indexOf c ≤ required_cols.indexOf d) ∧
      afterLoad msgs (some df) periods mode =
        { messages := msgs ++ [Msg.error (missingColMsg c)]
          exception := none
          fits := []
          charts := 0
          forecasts := []
          displays := []
          download := none } := by
  have halt : ∀ c, firstMissing df.cols = some c →
      afterLoad msgs (some df) periods mode =
        { messages := msgs ++ [Msg.error (missingColMsg c)]
          exception := none
          fits := []
          charts := 0
          forecasts := []
          displays := []
          download := none } := by
    intro c hc
    rw [afterLoad_some_eq, hc]
  by_cases hsku : "sku" ∈ df.cols
  · by_cases hfecha : "fecha" ∈ df.cols
    · by_cases hdem : "demanda_real" ∈ df.cols
      · refine absurd ?_ h
        intro c hc
        simp only [required_cols, List.mem_cons, List.not_mem_nil, or_false] at hc
        rcases hc with rfl | rfl | rfl
        · simpa using hsku
        · simpa using hfecha
        · simpa using hdem
      · have hfm : firstMissing df.cols = some "demanda_real" := by
          simp [firstMissing, required_cols, List.find?, hsku, hfecha, hdem]
        refine ⟨"demanda_real", hfm, by simp [required_cols],
          by simpa using hdem, ?_, halt _ hfm⟩
        intro d hd hdf
        simp only [required_cols, List.mem_cons, List.not_mem_nil, or_false] at hd
        rcases hd with rfl | rfl | rfl
        · exact absurd hdf (by simpa using hsku)
        · exact absurd hdf (by simpa using hfecha)
        · exact Nat.le_refl _
    · have hfm : firstMissing df.cols = some "fecha" := by
        simp [firstMissing, required_cols, List.find?, hsku, hfecha]
      refine ⟨"fecha", hfm, by simp [required_cols],
        by simpa using hfecha, ?_, halt _ hfm⟩
      intro d hd hdf
      simp only [required_cols, List.mem_cons, List.not_mem_nil, or_false] at hd
      rcases hd with rfl | rfl | rfl
      · exact absurd hdf (by simpa using hsku)
      · exact Nat.le_refl _
      · decide
  · have hfm : firstMissing df.cols = some "sku" := by
      simp [firstMissing, required_cols, List.find?, hsku]
    refine ⟨"sku", hfm, by simp [required_cols],
      by simpa using hsku, ?_, halt _ hfm⟩
    intro d hd hdf
    have h0 : required_cols.indexOf "sku" = 0 := by decide
    rw [h0]
    exact Nat.zero_le _

/-- C2 witness: a table without the `fecha` column halts the render with the
error naming `fecha`, no fit, no chart, no download. -/
theorem C2_witness :
    ∃ c, firstMissing wTableNoFecha.cols = some c ∧ c ∈ required_cols ∧
      wTableNoFecha.cols.contains c = false ∧
      (∀ d ∈ required_cols, wTableNoFecha.cols.contains d = false →
        required_cols.indexOf c ≤ required_cols.indexOf d) ∧
      afterLoad [] (some wTableNoFecha) 30 SeasonalityMode.additive =
        { messages := [] ++ [Msg.error (missingColMsg c)]
          exception := none
          fits := []
          charts := 0
          forecasts := []
          displays := []
          download := none } :=
  C2_missing_column_halts wTableNoFecha [] 30 SeasonalityMode.additive
    (by decide)

/-- C3: on a table with all required columns, the pipeline produces exactly
one Forecast Table per distinct SKU of the table (keyed without duplicates,
covering exactly the SKUs appearing in some row), and the exported aggregate
table is exactly the concatenation of the per-SKU Forecast Tables. -/
theorem C3_one_table_per_sku_lossless_export
    (df : Table) (msgs : List Msg) (periods : Nat) (mode : SeasonalityMode)
    (hv : firstMissing df.cols = none) :
    (afterLoad msgs (some df) periods mode).forecasts.map Prod.fst =
      uniqueFirst (df.rows.map (fun row => row.sku)) ∧
    ((afterLoad msgs (some df) periods mode).forecasts.map Prod.fst).Nodup ∧
    (∀ s, s ∈ (afterLoad msgs (some df) periods mode).forecasts.map Prod.fst ↔
      s ∈ df.rows.map (fun row => row.sku)) ∧
    ∃ d, (afterLoad msgs (some df) periods mode).download = some d ∧
      d.dataRows =
        ((afterLoad msgs (some df) periods mode).forecasts.map Prod.snd).flatten := by
  rw [afterLoad_valid msgs df periods mode hv]
  have hfst : (runForecasts msgs df periods mode).forecasts.map Prod.fst =
      uniqueFirst (df.rows.map (fun row => row.sku)) := by
    rw [runForecasts_forecasts, List.map_map]
    have hid : (Prod.fst ∘ fun s => (s, forecastFor mode periods df s)) =
        (id : String → String) := rfl
    rw [hid, List.map_id]
  refine ⟨hfst, ?_, ?_, ?_⟩
  · rw [hfst]
    exact nodup_uniqueFirst _
  · intro s
    rw [hfst]
    exact mem_uniqueFirst _ s
  · exact ⟨_, rfl, rfl⟩

/-- C3 witness: on the sample table the forecast keys are exactly the
distinct SKUs in order of first appearance. -/
theorem C3_witness :
    (afterLoad [] (some wTable) 30 SeasonalityMode.additive).forecasts.map
      Prod.fst = uniqueFirst (wTable.rows.map (fun row => row.sku)) :=
  (C3_one_table_per_sku_lossless_export wTable [] 30 SeasonalityMode.additive
    (by decide)).1

/-- C5: for every SKU of a valid table, the displayed per-entity table is in
the render's displays, has exactly `periods` rows, is the tail of the
Forecast Table projected to the four displayed columns, and consists
exactly of the future-period predictions (all timestamps strictly after the
last historical one). -/
theorem C5_display_table_is_future_tail
    (df : Table) (msgs : List Msg) (periods : Nat) (mode : SeasonalityMode)
    (s : String) (hv : firstMissing df.cols = none)
    (hs : s ∈ uniqueFirst (df.rows.map (fun row => row.sku))) :
    (s, displayFor mode periods df s) ∈
      (afterLoad msgs (some df) periods mode).displays ∧
    (displayFor mode periods df s).length = periods ∧
    displayFor mode periods df s =
      tailN periods ((forecastFor mode periods df s).map toDisplay) ∧
    displayFor mode periods df s =
      (futureDates (entitySeries df s) periods).map (fun d =>
        toDisplay (taggedRowAt mode (entitySeries df s) s d)) ∧
    ∀ row ∈ displayFor mode periods df s, lastDate (entitySeries df s) < row.ds := by
  refine ⟨?_, length_displayFor mode periods df s, rfl,
    displayFor_eq_future mode periods df s, ?_⟩
  · rw [afterLoad_valid msgs df periods mode hv, runForecasts_displays]
    exact List.mem_map_of_mem _ hs
  · intro row hrow
    exact mem_displayFor_future mode periods df s row hrow

/-- C5 witness: for SKU `A` of the sample table with horizon 30, the display
table has exactly 30 rows. -/
theorem C5_witness :
    (displayFor SeasonalityMode.additive 30 wTable "A").length = 30 :=
  (C5_display_table_is_future_tail wTable [] 30 SeasonalityMode.additive "A"
    (by decide) ((mem_uniqueFirst _ "A").mpr (by simp [wTable]))).2.1

/-- C7: on a valid table the render offers exactly one download: the fixed
filename and MIME type, the five exported columns, and as data the
concatenation of every SKU's full Forecast Table, so every forecast row of
every SKU (historical and future timestamps alike) appears in it. -/
theorem C7_export_artifact_fixed_name_and_columns
    (df : Table) (msgs : List Msg) (periods : Nat) (mode : SeasonalityMode)
    (hv : firstMissing df.cols = none) :
    ∃ d, (afterLoad msgs (some df) periods mode).download = some d ∧
      d.fileName = "forecast_all_skus.xlsx" ∧
      d.mime = "application/vnd.openxmlformats-officedocument.spreadsheetml.sheet" ∧
      d.header = ["ds", "yhat", "yhat_lower", "yhat_upper", "sku"] ∧
      d.dataRows =
        ((afterLoad msgs (some df) periods mode).forecasts.map Prod.snd).flatten ∧
      ∀ s ∈ uniqueFirst (df.rows.map (fun row => row.sku)),
        ∀ row ∈ forecastFor mode periods df s, row ∈ d.dataRows := by
  rw [afterLoad_valid msgs df periods mode hv]
  refine ⟨_, rfl, rfl, rfl, rfl, rfl, ?_⟩
  intro s hs row hrow
  have hmem : forecastFor mode periods df s ∈
      ((uniqueFirst (df.rows.map (fun r => r.sku))).map
        (fun u => (u, forecastFor mode periods df u))).map Prod.snd := by
    rw [List.map_map]
    exact List.mem_map_of_mem _ hs
  exact List.mem_flatten.mpr ⟨_, hmem, hrow⟩

/-- C7 witness: the sample table's render offers the spreadsheet under the
fixed filename. -/
theorem C7_witness :
    ∃ d, (afterLoad [] (some wTable) 30 SeasonalityMode.additive).download =
      some d ∧ d.fileName = "forecast_all_skus.xlsx" := by
  rcases C7_export_artifact_fixed_name_and_columns wTable [] 30
    SeasonalityMode.additive (by decide) with ⟨d, h1, h2, _⟩
  exact ⟨d, h1, h2⟩

/-- C10: the size check is strict — the size error fires exactly when the
byte size exceeds `MAX_SIZE_MB * 1024 * 1024`, so a file of exactly that
size is accepted and handed to the parser (reaching the success path when
it parses). -/
theorem C10_size_check_is_strict
    (f : UploadedFile) (ex : Table) (periods : Nat) (mode : SeasonalityMode) :
    (fileSizeMB f.size > (MAX_SIZE_MB : ℚ) ↔ MAX_SIZE_MB * 1024 * 1024 < f.size) ∧
    (f.size = MAX_SIZE_MB * 1024 * 1024 →
      ∀ t : Table, readFile f = Except.ok t →
        render (some f) ex periods mode =
          afterLoad [Msg.success loadSuccessMsg] (some t) periods mode) := by
  have hiff : fileSizeMB f.size > (MAX_SIZE_MB : ℚ) ↔
      MAX_SIZE_MB * 1024 * 1024 < f.size := by
    unfold fileSizeMB MAX_SIZE_MB
    rw [gt_iff_lt, lt_div_iff₀ (by norm_num : (0 : ℚ) < 1024 * 1024)]
    constructor
    · intro h12
      exact_mod_cast h12
    · intro h12
      exact_mod_cast h12
  refine ⟨hiff, ?_⟩
  intro hsize t ht
  have hnot : ¬ fileSizeMB f.size > (MAX_SIZE_MB : ℚ) := by
    rw [hiff, hsize]
    exact lt_irrefl _
  rw [render_some_eq, if_neg hnot, ht]

/-- C10 witness: an upload of exactly 5 * 1024 * 1024 bytes passes the size
check and is parsed, reaching the success path. -/
theorem C10_witness :
    render (some wUploadBoundary) wTable 30 SeasonalityMode.additive =
      afterLoad [Msg.success loadSuccessMsg] (some wTable) 30
        SeasonalityMode.additive :=
  (C10_size_check_is_strict wUploadBoundary wTable 30
    SeasonalityMode.additive).2 rfl wTable rfl

end Forecast

namespace Forecast

/-! ### The two-entity scenario -/

theorem map_constant {α β : Type} (l : List α) (b : β) :
    l.map (fun _ => b) = List.replicate l.length b := by
  induction l with
  | nil => rfl
  | cons x xs ih => simp [List.replicate_succ, ih]

theorem filter_true_eq {α : Type} (l : List α) :
    l.filter (fun _ => true) = l := by
  induction l with
  | nil => rfl
  | cons x xs ih => simp [List.filter_cons, ih]

theorem filter_false_eq {α : Type} (l : List α) :
    l.filter (fun _ => false) = [] := by
  induction l with
  | nil => rfl
  | cons x xs ih => simp [List.filter_cons, ih]

theorem demo_sku_map :
    demoTable.rows.map (fun r => r.sku) =
      List.replicate 400 "A" ++ List.replicate 400 "B" := by
  simp only [demoTable, List.map_append, List.map_map]
  rw [show ((fun r => Row.sku r) ∘ demoRowA) = (fun _ : Nat => "A") from rfl,
    show ((fun r => Row.sku r) ∘ demoRowB) = (fun _ : Nat => "B") from rfl,
    map_constant, map_constant, List.length_range]

theorem demo_skus :
    uniqueFirst (demoTable.rows.map (fun r => r.sku)) = ["A", "B"] := by
  rw [demo_sku_map]
  exact uniqueFirst_replicate_append 400 400 "A" "B" (by decide) (by decide)
    (by decide)

theorem demo_seriesA :
    entitySeries demoTable "A" = (List.range 400).map demoRowA := by
  simp only [entitySeries, demoTable]
  rw [List.filter_append, filter_map_comm, filter_map_comm]
  have hA : (fun i : Nat => ((demoRowA i).sku == "A")) = (fun _ : Nat => true) := by
    funext i
    simp [demoRowA]
  have hB : (fun i : Nat => ((demoRowB i).sku == "A")) = (fun _ : Nat => false) := by
    funext i
    simp [demoRowB]
  rw [hA, hB, filter_true_eq, filter_false_eq, List.map_nil, List.append_nil]

theorem demo_seriesB :
    entitySeries demoTable "B" = (List.range 400).map demoRowB := by
  simp only [entitySeries, demoTable]
  rw [List.filter_append, filter_map_comm, filter_map_comm]
  have hA : (fun i : Nat => ((demoRowA i).sku == "B")) = (fun _ : Nat => false) := by
    funext i
    simp [demoRowA]
  have hB : (fun i : Nat => ((demoRowB i).sku == "B")) = (fun _ : Nat => true) := by
    funext i
    simp [demoRowB]
  rw [hA, hB, filter_true_eq, filter_false_eq, List.map_nil, List.nil_append]

theorem demo_histA_length :
    (historyDates (entitySeries demoTable "A")).length = 400 := by
  rw [demo_seriesA]
  unfold historyDates
  rw [length_sortNat, List.map_map]
  rw [show ((fun r => Row.fecha r) ∘ demoRowA) = (fun i : Nat => i) from rfl]
  rw [show (List.range 400).map (fun i : Nat => i) = List.range 400 from
    List.map_id _]
  rw [uniqueFirst_eq_self _ (List.nodup_range 400), List.length_range]

theorem demo_histB_length :
    (historyDates (entitySeries demoTable "B")).length = 400 := by
  rw [demo_seriesB]
  unfold historyDates
  rw [length_sortNat, List.map_map]
  rw [show ((fun r => Row.fecha r) ∘ demoRowB) = (fun i : Nat => i) from rfl]
  rw [show (List.range 400).map (fun i : Nat => i) = List.range 400 from
    List.map_id _]
  rw [uniqueFirst_eq_self _ (List.nodup_range 400), List.length_range]

theorem demo_forecastA_length :
    (forecastFor SeasonalityMode.additive 30 demoTable "A").length = 430 := by
  rw [length_forecastFor, demo_histA_length]

theorem demo_forecastB_length :
    (forecastFor SeasonalityMode.additive 30 demoTable "B").length = 430 := by
  rw [length_forecastFor, demo_histB_length]

theorem demoRender_eq :
    demoRender = runForecasts [Msg.info exampleInfoMsg] demoTable 30
      SeasonalityMode.additive := by
  unfold demoRender
  rw [render_none_eq]
  exact afterLoad_valid _ _ _ _ (by decide)

theorem demoRender_forecasts :
    demoRender.forecasts =
      [("A", forecastFor SeasonalityMode.additive 30 demoTable "A"),
       ("B", forecastFor SeasonalityMode.additive 30 demoTable "B")] := by
  rw [demoRender_eq, runForecasts_forecasts, demo_skus]
  rfl

/-- C6: on the scenario table (entities `A` and `B`, 400 daily observations
each) with horizon 30 and additive mode, the render produces exactly two
Forecast Tables, each with 430 rows (400 historical + 30 future), and the
exported spreadsheet holds 860 data rows under its header. -/
theorem C6_two_entity_scenario :
    demoRender.forecasts.map Prod.fst = ["A", "B"] ∧
    (∀ pr ∈ demoRender.forecasts, pr.2.length = 430) ∧
    ∃ d, demoRender.download = some d ∧ d.dataRows.length = 860 ∧
      d.header = exportCols := by
  refine ⟨?_, ?_, ?_⟩
  · rw [demoRender_forecasts]
    rfl
  · intro pr hpr
    rw [demoRender_forecasts] at hpr
    simp only [List.mem_cons, List.not_mem_nil, or_false] at hpr
    rcases hpr with rfl | rfl
    · exact demo_forecastA_length
    · exact demo_forecastB_length
  · rw [demoRender_eq]
    refine ⟨_, rfl, ?_, rfl⟩
    show ((runForecasts [Msg.info exampleInfoMsg] demoTable 30
      SeasonalityMode.additive).forecasts.map Prod.snd).flatten.length = 860
    rw [show (runForecasts [Msg.info exampleInfoMsg] demoTable 30
      SeasonalityMode.additive).forecasts = demoRender.forecasts from
      (congrArg RenderResult.forecasts demoRender_eq).symm]
    rw [demoRender_forecasts]
    simp only [List.map_cons, List.map_nil, List.flatten_cons, List.flatten_nil,
      List.append_nil, List.length_append, demo_forecastA_length,
      demo_forecastB_length]

end Forecast
